import Mathlib

/-!
Verification of the pagination / query-composition core of the Think41
product-catalog API (`backend/create_departments_table.py`).

The Python source is shallowly embedded: rows and tables become Lean
structures and lists, SQL joins become list operations, the psycopg2
connection pool becomes an explicit counter of checked-out connections,
and the two FastAPI handlers become pure functions from an abstract
query-layer behaviour (what the store returns for each query) to a
response together with the trace of store queries executed and the log
lines written.
-/

namespace Think41

/-- A row of the `products` table.  `department` is the foreign-key column
holding a `departments.id` (INTEGER after the migration script), nullable. -/
structure ProductRow where
  id : Nat
  cost : Option ℚ := none
  category : Option String := none
  name : Option String := none
  brand : Option String := none
  retail_price : Option ℚ := none
  department : Option Nat := none
  sku : Option String := none
  distribution_center_id : Option Nat := none
deriving DecidableEq

/-- A row of the `departments` table (id, department_name, product_count). -/
structure DepartmentRow where
  id : Nat
  department_name : String
  product_count : Nat
deriving DecidableEq

/-- The relational store: a `products` table and a `departments` table. -/
structure DB where
  products : List ProductRow
  departments : List DepartmentRow

/-- One result row of the SELECT used by `get_products_paginated`,
`get_product_by_id` and `get_products_by_department`: the product columns
plus `d.department_name as department` (NULL when the left join finds no
matching department). -/
structure JoinedRow where
  id : Nat
  cost : Option ℚ := none
  category : Option String := none
  name : Option String := none
  brand : Option String := none
  retail_price : Option ℚ := none
  department : Option String := none
  sku : Option String := none
  distribution_center_id : Option Nat := none
deriving DecidableEq

/-- Build a result row from a product row and the resolved department name. -/
def mkJoined (p : ProductRow) (dept : Option String) : JoinedRow :=
  { id := p.id, cost := p.cost, category := p.category, name := p.name,
    brand := p.brand, retail_price := p.retail_price, department := dept,
    sku := p.sku, distribution_center_id := p.distribution_center_id }

/-- Evaluation of `ORDER BY p.id ASC` on the products table. -/
def productsSorted (db : DB) : List ProductRow :=
  db.products.mergeSort (fun a b => a.id ≤ b.id)

/-- Evaluation of `LEFT JOIN departments d ON p.department = d.id` for one product row:
one row per matching department, or a single row with a NULL department
name when no department matches. -/
def leftJoinRows (db : DB) (p : ProductRow) : List JoinedRow :=
  match db.departments.filter (fun d => p.department == some d.id) with
  | [] => [mkJoined p none]
  | ds => ds.map (fun d => mkJoined p (some d.department_name))

/-- The full (unwindowed) result of the left-join SELECT of
`get_products_paginated`, ordered by product id. -/
def productsJoinAll (db : DB) : List JoinedRow :=
  (productsSorted db).flatMap (leftJoinRows db)

/-- Query `get_products_paginated(limit, offset)`: the left-join SELECT with
`ORDER BY p.id ASC LIMIT %s OFFSET %s`. -/
def get_products_paginated (db : DB) (limit offset : Nat) : List JoinedRow :=
  ((productsJoinAll db).drop offset).take limit

/-- Query `get_product_count()`: `SELECT COUNT(*) FROM products`. -/
def get_product_count (db : DB) : Nat :=
  db.products.length

/-- Query `get_products_by_department(dept_id)`: inner `JOIN departments d ON
p.department = d.id WHERE d.id = %s ORDER BY p.id` — products whose
foreign key matches no department are omitted. -/
def get_products_by_department (db : DB) (dept_id : Nat) : List JoinedRow :=
  (productsSorted db).flatMap (fun p =>
    (db.departments.filter (fun d => p.department == some d.id && d.id == dept_id)).map
      (fun d => mkJoined p (some d.department_name)))

/-- The union, over all departments, of the department-scoped listings. -/
def unionByDepartment (db : DB) : List JoinedRow :=
  db.departments.flatMap (fun d => get_products_by_department db d.id)

/-! ### Connection pool (`SimpleConnectionPool` + `get_db_connection`) -/

/-- The pool state: its `maxconn` bound and how many connections are
currently checked out. -/
structure Pool where
  maxconn : Nat
  checkedOut : Nat
deriving DecidableEq

/-- Pool `getconn()`: hands out a connection, or raises `PoolError` when all
`maxconn` connections are already checked out. -/
def Pool.getconn (pool : Pool) : Except String Pool :=
  if pool.checkedOut < pool.maxconn then
    .ok { pool with checkedOut := pool.checkedOut + 1 }
  else
    .error "connection pool exhausted"

/-- Pool `putconn(conn)`: returns a connection to the pool. -/
def Pool.putconn (pool : Pool) : Pool :=
  { pool with checkedOut := pool.checkedOut - 1 }

/-- The `get_db_connection` context manager: acquire with `getconn`, run the
body, roll back and re-raise on an exception, and in the `finally` block
return the connection with `putconn` whenever one was acquired.  The result
pairs the body's outcome (or the acquisition failure) with the final pool
state. -/
def get_db_connection {E α : Type} (pool : Pool) (body : Except E α) :
    Except (Sum String E) α × Pool :=
  match pool.getconn with
  | .error m => (.error (.inl m), pool)
  | .ok acquired =>
    match body with
    | .ok a => (.ok a, acquired.putconn)
    | .error e => (.error (.inr e), acquired.putconn)

/-! ### Handlers -/

/-- An exception raised by a query-layer call: a `psycopg2.Error` carrying
the raw driver message, or any other exception. -/
inductive PyError where
  | pgError (msg : String)
  | otherError (msg : String)
deriving DecidableEq

/-- What the query layer returns to the handler for each of the three
queries a product request can issue. -/
structure QueryLayer where
  get_product_count : Except PyError Nat
  get_products_paginated : Nat → Nat → Except PyError (List JoinedRow)
  get_product_by_id : Int → Except PyError (Option JoinedRow)

/-- A store query executed by a handler, in execution order. -/
inductive QueryEvent where
  | countQuery
  | listQuery (limit offset : Nat)
  | byIdQuery (product_id : Int)
deriving DecidableEq

/-- The `pagination` object of a successful listing response. -/
structure PaginationInfo where
  current_page : Nat
  total_pages : Nat
  total_products : Nat
  has_next_page : Bool
  has_prev_page : Bool
  limit : Nat
  offset : Nat
deriving DecidableEq

/-- The HTTP response as the client sees it: status code, the `success`
flag of the application's JSON envelope when that envelope is present
(`none` for FastAPI's default request-validation body, which has only a
`detail` list), the application-level `error` message when present, and
the payload. -/
structure ApiResponse where
  status : Nat
  success : Option Bool := none
  error : Option String := none
  productsData : Option (List JoinedRow) := none
  productData : Option JoinedRow := none
  pagination : Option PaginationInfo := none
deriving DecidableEq

/-- A handler run: the response, the store queries it executed, and the
log lines it wrote. -/
structure HandlerResult where
  response : ApiResponse
  queries : List QueryEvent := []
  log : List String := []
deriving DecidableEq

/-- Handler for `GET /api/products` with query parameters `page` and `limit`.

FastAPI first checks the declared bounds `page ≥ 1`, `1 ≤ limit ≤ 100`; a
violation raises `RequestValidationError`, answered with status 422 and
FastAPI's default body (a `detail` list of field errors, with no
`success`/`error` envelope — the status-keyed `validation_exception_handler`
is consulted only for `HTTPException`, which this path never raises),
before the handler body runs.  The body then rejects `page > 1000000`
with 400, calls `get_product_count()`, answers an empty catalog with an
empty 200 response, rejects `page > total_pages` with 404, and otherwise
fetches the page and builds the pagination metadata. -/
def get_products (store : QueryLayer) (page limit : Int) : HandlerResult :=
  if page < 1 ∨ limit < 1 ∨ 100 < limit then
    { response := { status := 422 } }
  else
    let p : Nat := page.toNat
    let l : Nat := limit.toNat
    if 1000000 < p then
      { response :=
          { status := 400, success := some false,
            error := some "Page number is too large. Maximum allowed page is 1,000,000." } }
    else
      let offset : Nat := (p - 1) * l
      match store.get_product_count with
      | .error (.pgError m) =>
        { response :=
            { status := 500, success := some false,
              error := some "Database error occurred while fetching products." },
          queries := [.countQuery],
          log := ["Database error fetching products: " ++ m] }
      | .error (.otherError m) =>
        { response :=
            { status := 500, success := some false,
              error := some "An unexpected error occurred." },
          queries := [.countQuery],
          log := ["Unexpected error fetching products: " ++ m] }
      | .ok total_products =>
        if 0 < total_products then
          let total_pages : Nat := (total_products + l - 1) / l
          if total_pages < p then
            { response :=
                { status := 404, success := some false,
                  error := some ("Page " ++ toString p ++ " not found. Total available pages: "
                    ++ toString total_pages ++ ".") },
              queries := [.countQuery] }
          else
            match store.get_products_paginated l offset with
            | .error (.pgError m) =>
              { response :=
                  { status := 500, success := some false,
                    error := some "Database error occurred while fetching products." },
                queries := [.countQuery, .listQuery l offset],
                log := ["Database error fetching products: " ++ m] }
            | .error (.otherError m) =>
              { response :=
                  { status := 500, success := some false,
                    error := some "An unexpected error occurred." },
                queries := [.countQuery, .listQuery l offset],
                log := ["Unexpected error fetching products: " ++ m] }
            | .ok rows =>
              { response :=
                  { status := 200, success := some true,
                    productsData := some rows,
                    pagination := some
                      { current_page := p, total_pages := total_pages,
                        total_products := total_products,
                        has_next_page := decide (p < total_pages),
                        has_prev_page := decide (1 < p),
                        limit := l, offset := offset } },
                queries := [.countQuery, .listQuery l offset] }
        else
          { response :=
              { status := 200, success := some true,
                productsData := some [],
                pagination := some
                  { current_page := p, total_pages := 0,
                    total_products := 0, has_next_page := false,
                    has_prev_page := false, limit := l, offset := offset } },
            queries := [.countQuery] }

/-- Handler for `GET /api/products/{product_id}`: reject a non-positive id or an id
above the PostgreSQL INTEGER maximum with 400 before any query, then call
`get_product_by_id`; a missing row is 404, a `psycopg2.Error` is a 500
with a generic message (the raw message is only logged). -/
def get_product (store : QueryLayer) (product_id : Int) : HandlerResult :=
  if product_id ≤ 0 then
    { response :=
        { status := 400, success := some false,
          error := some "Invalid product ID. Product ID must be a positive integer." } }
  else if 2147483647 < product_id then
    { response :=
        { status := 400, success := some false,
          error := some "Product ID is too large." } }
  else
    match store.get_product_by_id product_id with
    | .error (.pgError m) =>
      { response :=
          { status := 500, success := some false,
            error := some "Database error occurred while fetching product." },
        queries := [.byIdQuery product_id],
        log := ["Database error fetching product " ++ toString product_id ++ ": " ++ m] }
    | .error (.otherError m) =>
      { response :=
          { status := 500, success := some false,
            error := some "An unexpected error occurred." },
        queries := [.byIdQuery product_id],
        log := ["Unexpected error fetching product " ++ toString product_id ++ ": " ++ m] }
    | .ok none =>
      { response :=
          { status := 404, success := some false,
            error := some ("Product with ID " ++ toString product_id ++ " not found.") },
        queries := [.byIdQuery product_id] }
    | .ok (some row) =>
      { response := { status := 200, success := some true, productData := some row },
        queries := [.byIdQuery product_id] }

/-! ### Concrete query-layer behaviours used as witnesses -/

/-- A healthy store holding `N` products; the page query returns no rows
(their content is irrelevant to the pagination metadata). -/
def pureStore (N : Nat) : QueryLayer :=
  { get_product_count := .ok N,
    get_products_paginated := fun _ _ => .ok [],
    get_product_by_id := fun _ => .ok none }

/-- A store whose every query raises a `psycopg2.Error` with message `m`. -/
def countFailStore (m : String) : QueryLayer :=
  { get_product_count := .error (.pgError m),
    get_products_paginated := fun _ _ => .error (.pgError m),
    get_product_by_id := fun _ => .error (.pgError m) }

/-- A store whose count succeeds (one product) but whose page query raises
a `psycopg2.Error` with message `m`. -/
def listFailStore (m : String) : QueryLayer :=
  { get_product_count := .ok 1,
    get_products_paginated := fun _ _ => .error (.pgError m),
    get_product_by_id := fun _ => .ok none }

/-! ### Theorems -/

/-- The integer ceiling division `(N + L - 1) / L` used at lines 383 and
413 of the source equals the mathematical ceiling of `N / L`. -/
theorem ceilDiv_eq_rat_ceil (N L : Nat) (hN : 0 < N) (hL : 0 < L) :
    (((N + L - 1) / L : Nat) : ℤ) = ⌈(N : ℚ) / (L : ℚ)⌉ := by
  have hdm := Nat.div_add_mod (N + L - 1) L
  have hmlt : (N + L - 1) % L < L := Nat.mod_lt _ hL
  set q := (N + L - 1) / L with hq
  have h1 : N ≤ L * q := by omega
  have h2 : L * q < N + L := by omega
  have hLQ : (0 : ℚ) < (L : ℚ) := by exact_mod_cast hL
  symm
  rw [Int.ceil_eq_iff]
  constructor
  · rw [lt_div_iff₀ hLQ]
    have h2' : ((L : ℚ)) * (q : ℚ) < (N : ℚ) + (L : ℚ) := by exact_mod_cast h2
    push_cast
    nlinarith
  · rw [div_le_iff₀ hLQ]
    have h1' : (N : ℚ) ≤ ((L : ℚ)) * (q : ℚ) := by exact_mod_cast h1
    push_cast
    nlinarith

/-- C1: for every catalog size `N > 0` and limit `L ∈ [1,100]`, the
`total_pages` value reported by `GET /api/products` is computed by integer
arithmetic as `(N + L - 1) / L`, and that value equals `⌈N / L⌉`. -/
theorem c1_total_pages_is_ceiling
    (store : QueryLayer) (N page limit : Nat) (rows : List JoinedRow)
    (hc : store.get_product_count = .ok N) (hN : 0 < N)
    (hp1 : 1 ≤ page) (hpmax : page ≤ 1000000)
    (hl1 : 1 ≤ limit) (hl2 : limit ≤ 100)
    (hpr : page ≤ (N + limit - 1) / limit)
    (hrows : store.get_products_paginated limit ((page - 1) * limit) = .ok rows) :
    ∃ pg : PaginationInfo,
      (get_products store (page : Int) (limit : Int)).response.pagination = some pg ∧
      pg.total_pages = (N + limit - 1) / limit ∧
      ((pg.total_pages : ℤ) = ⌈(N : ℚ) / (limit : ℚ)⌉) := by
  have hcond1 : ¬((page : Int) < 1 ∨ (limit : Int) < 1 ∨ 100 < (limit : Int)) := by omega
  have hcond2 : ¬(1000000 < page) := by omega
  have hcond3 : ¬((N + limit - 1) / limit < page) := by omega
  simp only [get_products, Int.toNat_natCast, if_neg hcond1, if_neg hcond2, hc, if_pos hN,
    if_neg hcond3, hrows]
  refine ⟨_, rfl, rfl, ?_⟩
  exact ceilDiv_eq_rat_ceil N limit hN (by omega)

/-- Witness for C1 at `N = 25`, `page = 3`, `limit = 10`. -/
theorem c1_witness :
    ∃ pg : PaginationInfo,
      (get_products (pureStore 25) ((3 : Nat) : Int) ((10 : Nat) : Int)).response.pagination
        = some pg ∧
      pg.total_pages = (25 + 10 - 1) / 10 ∧
      ((pg.total_pages : ℤ) = ⌈(25 : ℚ) / ((10 : Nat) : ℚ)⌉) :=
  c1_total_pages_is_ceiling (pureStore 25) 25 3 10 [] rfl (by decide) (by decide) (by decide)
    (by decide) (by decide) (by decide) rfl

/-- C2: when the count query reports an empty catalog, every request with
an in-range page (up to 1,000,000) and a valid limit receives a 200
response with an empty product list, `total_pages = 0`,
`total_products = 0` and both navigation flags false; the out-of-range
404 is never triggered. -/
theorem c2_empty_catalog_returns_empty_page
    (store : QueryLayer) (page limit : Nat)
    (hc : store.get_product_count = .ok 0)
    (hp1 : 1 ≤ page) (hpmax : page ≤ 1000000)
    (hl1 : 1 ≤ limit) (hl2 : limit ≤ 100) :
    (get_products store (page : Int) (limit : Int)).response.status = 200 ∧
    (get_products store (page : Int) (limit : Int)).response.success = some true ∧
    (get_products store (page : Int) (limit : Int)).response.productsData = some [] ∧
    (get_products store (page : Int) (limit : Int)).response.pagination =
      some { current_page := page, total_pages := 0, total_products := 0,
             has_next_page := false, has_prev_page := false,
             limit := limit, offset := (page - 1) * limit } ∧
    (get_products store (page : Int) (limit : Int)).response.status ≠ 404 := by
  have hcond1 : ¬((page : Int) < 1 ∨ (limit : Int) < 1 ∨ 100 < (limit : Int)) := by omega
  have hcond2 : ¬(1000000 < page) := by omega
  simp only [get_products, Int.toNat_natCast, if_neg hcond1, if_neg hcond2, hc,
    if_neg (lt_irrefl 0)]
  exact ⟨trivial, trivial, trivial, trivial, by decide⟩

/-- Witness for C2 at `page = 5`, `limit = 10` on an empty catalog. -/
theorem c2_witness :
    (get_products (pureStore 0) ((5 : Nat) : Int) ((10 : Nat) : Int)).response.status = 200 ∧
    (get_products (pureStore 0) ((5 : Nat) : Int) ((10 : Nat) : Int)).response.success
      = some true ∧
    (get_products (pureStore 0) ((5 : Nat) : Int) ((10 : Nat) : Int)).response.productsData
      = some [] ∧
    (get_products (pureStore 0) ((5 : Nat) : Int) ((10 : Nat) : Int)).response.pagination =
      some { current_page := 5, total_pages := 0, total_products := 0,
             has_next_page := false, has_prev_page := false,
             limit := 10, offset := (5 - 1) * 10 } ∧
    (get_products (pureStore 0) ((5 : Nat) : Int) ((10 : Nat) : Int)).response.status ≠ 404 :=
  c2_empty_catalog_returns_empty_page (pureStore 0) 5 10 rfl (by decide) (by decide)
    (by decide) (by decide)

/-- C3 counterexample: with one product in the catalog, `limit = 1` and
`page = 1000001 > total_pages = 1`, the handler answers 400 (the large-page
guard), not the 404 the claim promises for every such page. -/
theorem c3_counterexample :
    (pureStore 1).get_product_count = .ok 1 ∧
    (1 + 1 - 1) / 1 < 1000001 ∧
    (get_products (pureStore 1) 1000001 1).response.status = 400 ∧
    ¬((get_products (pureStore 1) 1000001 1).response.status = 404) :=
  ⟨rfl, by decide, rfl, by decide⟩

/-- C3 (amended): for every request that passes parameter validation and
the large-page guard (`1 ≤ limit ≤ 100`, `page ≤ 1,000,000`), a non-empty
catalog with `page > total_pages` is answered 404. -/
theorem c3_nonempty_page_out_of_range_is_404
    (store : QueryLayer) (N page limit : Nat)
    (hc : store.get_product_count = .ok N) (hN : 0 < N)
    (hpmax : page ≤ 1000000)
    (hl1 : 1 ≤ limit) (hl2 : limit ≤ 100)
    (hpr : (N + limit - 1) / limit < page) :
    (get_products store (page : Int) (limit : Int)).response.status = 404 := by
  have hge1 : 1 ≤ page := Nat.lt_of_le_of_lt (Nat.zero_le ((N + limit - 1) / limit)) hpr
  have hcond1 : ¬((page : Int) < 1 ∨ (limit : Int) < 1 ∨ 100 < (limit : Int)) := by omega
  have hcond2 : ¬(1000000 < page) := by omega
  simp only [get_products, Int.toNat_natCast, if_neg hcond1, if_neg hcond2, hc, if_pos hN,
    if_pos hpr]

/-- Witness for the amended C3 at `N = 25`, `page = 4`, `limit = 10`. -/
theorem c3_witness :
    (get_products (pureStore 25) ((4 : Nat) : Int) ((10 : Nat) : Int)).response.status = 404 :=
  c3_nonempty_page_out_of_range_is_404 (pureStore 25) 25 4 10 rfl (by decide) (by decide)
    (by decide) (by decide) (by decide)

/-- C4: a valid in-range request is answered with pagination metadata
satisfying `offset = (page - 1) * limit`, `has_next_page ↔ page <
total_pages` and `has_prev_page ↔ page > 1`. -/
theorem c4_pagination_metadata
    (store : QueryLayer) (N page limit : Nat) (rows : List JoinedRow)
    (hc : store.get_product_count = .ok N) (hN : 0 < N)
    (hp1 : 1 ≤ page) (hpmax : page ≤ 1000000)
    (hl1 : 1 ≤ limit) (hl2 : limit ≤ 100)
    (hpr : page ≤ (N + limit - 1) / limit)
    (hrows : store.get_products_paginated limit ((page - 1) * limit) = .ok rows) :
    ∃ pg : PaginationInfo,
      (get_products store (page : Int) (limit : Int)).response.pagination = some pg ∧
      pg.offset = (page - 1) * limit ∧
      (pg.has_next_page = true ↔ page < (N + limit - 1) / limit) ∧
      (pg.has_prev_page = true ↔ 1 < page) := by
  have hcond1 : ¬((page : Int) < 1 ∨ (limit : Int) < 1 ∨ 100 < (limit : Int)) := by omega
  have hcond2 : ¬(1000000 < page) := by omega
  have hcond3 : ¬((N + limit - 1) / limit < page) := by omega
  simp only [get_products, Int.toNat_natCast, if_neg hcond1, if_neg hcond2, hc, if_pos hN,
    if_neg hcond3, hrows]
  exact ⟨_, rfl, rfl, by simp, by simp⟩

/-- Witness for C4 at `N = 25`, `page = 2`, `limit = 10`. -/
theorem c4_witness :
    ∃ pg : PaginationInfo,
      (get_products (pureStore 25) ((2 : Nat) : Int) ((10 : Nat) : Int)).response.pagination
        = some pg ∧
      pg.offset = (2 - 1) * 10 ∧
      (pg.has_next_page = true ↔ 2 < (25 + 10 - 1) / 10) ∧
      (pg.has_prev_page = true ↔ 1 < 2) :=
  c4_pagination_metadata (pureStore 25) 25 2 10 [] rfl (by decide) (by decide) (by decide)
    (by decide) (by decide) (by decide) rfl

/-- C5 counterexample: a request with `page = 1000001` and the invalid
`limit = 0` is answered 422 by FastAPI parameter validation, not the 400
the claim promises for every request with `page > 1,000,000`. -/
theorem c5_counterexample :
    (get_products (pureStore 7) 1000001 0).response.status = 422 ∧
    ¬((get_products (pureStore 7) 1000001 0).response.status = 400) :=
  ⟨rfl, by decide⟩

/-- C5 (amended): for every request with a valid limit, `page > 1,000,000`
is answered 400 before any store query executes, for every catalog, and
`page = 1,000,000` itself is never answered 400. -/
theorem c5_large_page_guard
    (store : QueryLayer) (page limit : Int)
    (hl1 : 1 ≤ limit) (hl2 : limit ≤ 100)
    (hp : 1000000 < page) :
    ((get_products store page limit).response.status = 400 ∧
     (get_products store page limit).queries = []) ∧
    ¬((get_products store 1000000 limit).response.status = 400) := by
  constructor
  · have hcond1 : ¬(page < 1 ∨ limit < 1 ∨ 100 < limit) := by omega
    have hcond2 : 1000000 < page.toNat := by omega
    simp only [get_products, if_neg hcond1, if_pos hcond2]
    exact ⟨trivial, trivial⟩
  · have hcond1 : ¬((1000000 : Int) < 1 ∨ limit < 1 ∨ 100 < limit) := by omega
    have hcond2 : ¬(1000000 < (1000000 : Int).toNat) := by decide
    simp only [get_products, if_neg hcond1, if_neg hcond2]
    split
    · simp
    · simp
    · split
      · split
        · simp
        · split <;> simp
      · simp

/-- Witness for the amended C5 at `page = 1000001`, `limit = 10`. -/
theorem c5_witness :
    ((get_products (pureStore 7) 1000001 10).response.status = 400 ∧
     (get_products (pureStore 7) 1000001 10).queries = []) ∧
    ¬((get_products (pureStore 7) 1000000 10).response.status = 400) :=
  c5_large_page_guard (pureStore 7) 1000001 10 (by decide) (by decide) (by decide)

/-- C6: a product id that is non-positive or above the PostgreSQL INTEGER
maximum is answered 400 and no store query executes. -/
theorem c6_invalid_product_id_rejected
    (store : QueryLayer) (product_id : Int)
    (h : product_id ≤ 0 ∨ 2147483647 < product_id) :
    (get_product store product_id).response.status = 400 ∧
    (get_product store product_id).queries = [] := by
  rcases h with h | h
  · simp only [get_product, if_pos h]
    exact ⟨trivial, trivial⟩
  · have h0 : ¬(product_id ≤ 0) := by omega
    simp only [get_product, if_neg h0, if_pos h]
    exact ⟨trivial, trivial⟩

/-- Witness for C6 at `product_id = -5`. -/
theorem c6_witness :
    (get_product (pureStore 7) (-5)).response.status = 400 ∧
    (get_product (pureStore 7) (-5)).queries = [] :=
  c6_invalid_product_id_rejected (pureStore 7) (-5) (by decide)

/-- C7 counterexample: a request with `page = 0` (below the declared minimum) is answered
422 by FastAPI parameter validation, not the 400 the claim promises. -/
theorem c7_counterexample :
    (get_products (pureStore 7) 0 10).response.status = 422 ∧
    ¬((get_products (pureStore 7) 0 10).response.status = 400) :=
  ⟨rfl, by decide⟩

/-- C7 (amended): an invalid `page` or `limit` parameter (`page < 1`, or
`limit` outside `[1, 100]`) is answered 422 by FastAPI request validation
with its default detail body — carrying no `success` flag and no
application-level error message, since the status-keyed
`validation_exception_handler` is consulted only for `HTTPException` and
so never handles `RequestValidationError` — before any store query
executes; it is not answered 400. -/
theorem c7_invalid_params_yield_422
    (store : QueryLayer) (page limit : Int)
    (h : page < 1 ∨ limit < 1 ∨ 100 < limit) :
    (get_products store page limit).response.status = 422 ∧
    (get_products store page limit).response.status ≠ 400 ∧
    (get_products store page limit).response.success = none ∧
    (get_products store page limit).response.error = none ∧
    (get_products store page limit).queries = [] := by
  simp only [get_products, if_pos h]
  exact ⟨trivial, by decide, trivial, trivial, trivial⟩

/-- Witness for the amended C7 at `page = 0`, `limit = 200`. -/
theorem c7_witness :
    (get_products (pureStore 7) 0 200).response.status = 422 ∧
    (get_products (pureStore 7) 0 200).response.status ≠ 400 ∧
    (get_products (pureStore 7) 0 200).response.success = none ∧
    (get_products (pureStore 7) 0 200).response.error = none ∧
    (get_products (pureStore 7) 0 200).queries = [] :=
  c7_invalid_params_yield_422 (pureStore 7) 0 200 (by decide)

/-- C8: the `get_db_connection` scope conserves the number of checked-out
connections on every exit path — after a successful body, after a body
that raises, and after a failed acquisition, the pool's checked-out count
equals what it was before the operation. -/
theorem c8_connection_conservation {E α : Type} (pool : Pool) (body : Except E α) :
    (get_db_connection pool body).2.checkedOut = pool.checkedOut := by
  unfold get_db_connection Pool.getconn Pool.putconn
  by_cases h : pool.checkedOut < pool.maxconn
  · simp only [if_pos h]
    cases body <;> simp
  · simp only [if_neg h]

/-- C9 counterexample: one and the same raw store error ("boom") yields
the string "Database error occurred while fetching products." on
`GET /api/products` and the different string "Database error occurred
while fetching product." on `GET /api/products/{id}` — the delivered
message is not one fixed string across the two endpoints. -/
theorem c9_counterexample :
    (countFailStore "boom").get_product_count = .error (.pgError "boom") ∧
    (countFailStore "boom").get_product_by_id 1 = .error (.pgError "boom") ∧
    (get_products (countFailStore "boom") 1 10).response.error
      = some "Database error occurred while fetching products." ∧
    (get_product (countFailStore "boom") 1).response.error
      = some "Database error occurred while fetching product." ∧
    (get_products (countFailStore "boom") 1 10).response.error
      ≠ (get_product (countFailStore "boom") 1).response.error :=
  ⟨rfl, rfl, rfl, rfl, by decide⟩

/-- C9 (amended): within each endpoint the message delivered for a store
error is one fixed generic string that does not depend on the error's
content — for a failing count query and a failing page query on
`GET /api/products`, and for a failing lookup on
`GET /api/products/{id}` — and the raw driver message appears only in
the internal log. -/
theorem c9_store_errors_hidden
    (s1 s2 s3 : QueryLayer) (m1 m2 m3 : String) (page limit pid : Int) (N : Nat)
    (hp1 : 1 ≤ page) (hpmax : page ≤ 1000000) (hl1 : 1 ≤ limit) (hl2 : limit ≤ 100)
    (h1 : s1.get_product_count = .error (.pgError m1))
    (h2 : s2.get_product_count = .ok N) (hN : 0 < N)
    (h2b : s2.get_products_paginated limit.toNat 0 = .error (.pgError m2))
    (h3a : 1 ≤ pid) (h3b : pid ≤ 2147483647)
    (h3 : s3.get_product_by_id pid = .error (.pgError m3)) :
    ((get_products s1 page limit).response.status = 500 ∧
     (get_products s1 page limit).response.error
       = some "Database error occurred while fetching products." ∧
     ("Database error fetching products: " ++ m1) ∈ (get_products s1 page limit).log) ∧
    ((get_products s2 1 limit).response.status = 500 ∧
     (get_products s2 1 limit).response.error
       = some "Database error occurred while fetching products." ∧
     ("Database error fetching products: " ++ m2) ∈ (get_products s2 1 limit).log) ∧
    ((get_product s3 pid).response.status = 500 ∧
     (get_product s3 pid).response.error
       = some "Database error occurred while fetching product." ∧
     ("Database error fetching product " ++ toString pid ++ ": " ++ m3)
       ∈ (get_product s3 pid).log) := by
  refine ⟨?_, ?_, ?_⟩
  · have c1 : ¬(page < 1 ∨ limit < 1 ∨ 100 < limit) := by omega
    have c2 : ¬(1000000 < page.toNat) := by omega
    simp only [get_products, if_neg c1, if_neg c2, h1]
    exact ⟨trivial, trivial, by simp⟩
  · have c1 : ¬((1 : Int) < 1 ∨ limit < 1 ∨ 100 < limit) := by omega
    have c2 : ¬(1000000 < (1 : Int).toNat) := by decide
    have hl0 : 0 < limit.toNat := by omega
    have c3 : ¬((N + limit.toNat - 1) / limit.toNat < (1 : Int).toNat) := by
      have : 1 ≤ (N + limit.toNat - 1) / limit.toNat := by
        rw [Nat.le_div_iff_mul_le hl0]
        omega
      simp only [Int.toNat_one]
      omega
    have hoff : ((1 : Int).toNat - 1) * limit.toNat = 0 := by simp
    simp only [get_products, if_neg c1, if_neg c2, h2, if_pos hN, if_neg c3, hoff, h2b]
    exact ⟨trivial, trivial, by simp⟩
  · have c1 : ¬(pid ≤ 0) := by omega
    have c2 : ¬(2147483647 < pid) := by omega
    simp only [get_product, if_neg c1, if_neg c2, h3]
    exact ⟨trivial, trivial, by simp⟩

/-- Witness for the amended C9 with messages "boom", "oops", "zap". -/
theorem c9_witness :
    ((get_products (countFailStore "boom") 1 10).response.status = 500 ∧
     (get_products (countFailStore "boom") 1 10).response.error
       = some "Database error occurred while fetching products." ∧
     ("Database error fetching products: " ++ "boom")
       ∈ (get_products (countFailStore "boom") 1 10).log) ∧
    ((get_products (listFailStore "oops") 1 10).response.status = 500 ∧
     (get_products (listFailStore "oops") 1 10).response.error
       = some "Database error occurred while fetching products." ∧
     ("Database error fetching products: " ++ "oops")
       ∈ (get_products (listFailStore "oops") 1 10).log) ∧
    ((get_product (countFailStore "zap") 5).response.status = 500 ∧
     (get_product (countFailStore "zap") 5).response.error
       = some "Database error occurred while fetching product." ∧
     ("Database error fetching product " ++ toString (5 : Int) ++ ": " ++ "zap")
       ∈ (get_product (countFailStore "zap") 5).log) :=
  c9_store_errors_hidden (countFailStore "boom") (listFailStore "oops") (countFailStore "zap")
    "boom" "oops" "zap" 1 10 5 1 (by decide) (by decide) (by decide) (by decide)
    rfl rfl (by decide) rfl (by decide) (by decide) rfl

/-- Every row the left join produces for a product carries that
product's id, and at least one such row exists. -/
theorem exists_mem_leftJoinRows (db : DB) (q : ProductRow) :
    ∃ r ∈ leftJoinRows db q, r.id = q.id := by
  unfold leftJoinRows
  cases hf : db.departments.filter (fun d => q.department == some d.id) with
  | nil => exact ⟨mkJoined q none, List.mem_singleton_self _, rfl⟩
  | cons d ds =>
    exact ⟨mkJoined q (some d.department_name), List.mem_map.mpr ⟨d, List.mem_cons_self d ds, rfl⟩, rfl⟩

/-- Inversion for membership in the inner-join department listing. -/
theorem mem_by_department (db : DB) (dept_id : Nat) (r : JoinedRow)
    (hr : r ∈ get_products_by_department db dept_id) :
    ∃ q ∈ db.products, ∃ d ∈ db.departments,
      q.department = some d.id ∧ d.id = dept_id ∧ r = mkJoined q (some d.department_name) := by
  unfold get_products_by_department at hr
  rcases List.mem_flatMap.mp hr with ⟨q, hq, hrq⟩
  rcases List.mem_map.mp hrq with ⟨d, hd, hrd⟩
  rcases List.mem_filter.mp hd with ⟨hdmem, hcond⟩
  rcases (Bool.and_eq_true _ _).mp hcond with ⟨hc1, hc2⟩
  exact ⟨q, List.mem_mergeSort.mp hq, d, hdmem, beq_iff_eq.mp hc1,
    beq_iff_eq.mp hc2, hrd.symm⟩

/-- C10: a product whose department id matches no department row still
appears in the full paginated listing (left join) with a NULL department
name, while every department-scoped listing (inner join) omits it; the
union of the per-department listings therefore covers only ids of the full
listing and misses the orphan — a strict subset. -/
theorem c10_left_join_keeps_orphans_inner_join_drops_them
    (db : DB) (p : ProductRow)
    (hmem : p ∈ db.products)
    (hids : (db.products.map ProductRow.id).Nodup)
    (horphan : ∀ d ∈ db.departments, p.department ≠ some d.id) :
    (mkJoined p none ∈ get_products_paginated db (productsJoinAll db).length 0) ∧
    (∀ dept_id : Nat, ∀ r ∈ get_products_by_department db dept_id, r.id ≠ p.id) ∧
    (∀ r ∈ unionByDepartment db, r.id ∈ (productsJoinAll db).map JoinedRow.id) ∧
    (p.id ∉ (unionByDepartment db).map JoinedRow.id) := by
  have hfil : db.departments.filter (fun d => p.department == some d.id) = [] := by
    rw [List.filter_eq_nil_iff]
    intro d hd
    simp only [beq_iff_eq]
    exact horphan d hd
  have hnotin : ∀ dept_id : Nat, ∀ r ∈ get_products_by_department db dept_id, r.id ≠ p.id := by
    intro dept_id r hr hrid
    rcases mem_by_department db dept_id r hr with ⟨q, hq, d, hd, hqd, _, hreq⟩
    have hqid : q.id = p.id := by rw [hreq] at hrid; exact hrid
    have hqp : q = p := List.inj_on_of_nodup_map hids hq hmem hqid
    rw [hqp] at hqd
    exact horphan d hd hqd
  refine ⟨?_, hnotin, ?_, ?_⟩
  · unfold get_products_paginated
    rw [List.drop_zero, List.take_length]
    apply List.mem_flatMap.mpr
    refine ⟨p, List.mem_mergeSort.mpr hmem, ?_⟩
    unfold leftJoinRows
    rw [hfil]
    exact List.mem_singleton_self _
  · intro r hr
    rcases List.mem_flatMap.mp hr with ⟨d0, _, hrd0⟩
    rcases mem_by_department db d0.id r hrd0 with ⟨q, hq, d, _, _, _, hreq⟩
    rcases exists_mem_leftJoinRows db q with ⟨r', hr', hr'id⟩
    apply List.mem_map.mpr
    refine ⟨r', List.mem_flatMap.mpr ⟨q, List.mem_mergeSort.mpr hq, hr'⟩, ?_⟩
    rw [hr'id, hreq]
    rfl
  · intro hin
    rcases List.mem_map.mp hin with ⟨r, hr, hrid⟩
    rcases List.mem_flatMap.mp hr with ⟨d0, _, hrd0⟩
    exact hnotin d0.id r hrd0 hrid

/-- A two-product catalog in which product 2 references the non-existent
department 99; only department 1 exists. -/
def orphanDB : DB :=
  { products := [{ id := 1, department := some 1 }, { id := 2, department := some 99 }],
    departments := [{ id := 1, department_name := "Tools", product_count := 1 }] }

/-- The orphaned product of `orphanDB`. -/
def orphanProduct : ProductRow := { id := 2, department := some 99 }

/-- Witness for C10 on `orphanDB`. -/
theorem c10_witness :
    (mkJoined orphanProduct none
       ∈ get_products_paginated orphanDB (productsJoinAll orphanDB).length 0) ∧
    (∀ dept_id : Nat, ∀ r ∈ get_products_by_department orphanDB dept_id,
       r.id ≠ orphanProduct.id) ∧
    (∀ r ∈ unionByDepartment orphanDB,
       r.id ∈ (productsJoinAll orphanDB).map JoinedRow.id) ∧
    (orphanProduct.id ∉ (unionByDepartment orphanDB).map JoinedRow.id) :=
  c10_left_join_keeps_orphans_inner_join_drops_them orphanDB orphanProduct
    (by decide) (by decide) (by decide)

end Think41
